import Mathlib

/-!
Verification of the zednet core against its specification.

The definitions below are a shallow embedding of the Python sources under
src/core/ (security.py, killswitch.py, audit_log.py, downloader.py,
publisher.py, storage.py).  Byte strings are modelled as `List Nat`
(one entry per byte), Python `str` values as Lean `String`/`List Char`
(URL-decoded bytes above 0x7f are modelled as one character per byte;
for the ASCII-only predicates used by the code this is behaviour
preserving).  Filesystem canonicalisation (`Path.resolve`) is modelled
as an arbitrary total function on component lists; the branch where
`resolve` raises `OSError` returns `None` in the Python code and is
outside the model.  Fallible operations return `Option`/`Except`.
-/

namespace ZedNet

/-! ### Character helpers shared by the embeddings of src/core/security.py -/

/-- ASCII whitespace characters stripped by Python `str.strip()` (the
Unicode-only whitespace code points are outside the character model). -/
def isAsciiWhitespace (c : Char) : Bool :=
  c == ' ' || c == '\t' || c == '\n' || c == '\r' ||
    c == Char.ofNat 11 || c == Char.ofNat 12

/-- Characters stripped by `str.strip('/\\')` in `sanitize_path`. -/
def isSlashOrBackslash (c : Char) : Bool :=
  c == '/' || c == '\\'

/-- Python `str.strip` with a character predicate: drop matching characters
from both ends. -/
def stripChars (p : Char → Bool) (s : List Char) : List Char :=
  ((s.dropWhile p).reverse.dropWhile p).reverse

/-- ASCII letter, as in the regex classes `[a-zA-Z]`. -/
def isAsciiAlpha (c : Char) : Bool :=
  ('a' ≤ c && c ≤ 'z') || ('A' ≤ c && c ≤ 'Z')

/-- ASCII decimal digit. -/
def isAsciiDigit (c : Char) : Bool :=
  '0' ≤ c && c ≤ '9'

/-- Hexadecimal digit, lowercase or uppercase. -/
def isHexDigitChar (c : Char) : Bool :=
  isAsciiDigit c || ('a' ≤ c && c ≤ 'f') || ('A' ≤ c && c ≤ 'F')

/-- Numeric value of a hexadecimal digit. -/
def hexVal (c : Char) : Nat :=
  if isAsciiDigit c then c.toNat - '0'.toNat
  else if 'a' ≤ c && c ≤ 'f' then c.toNat - 'a'.toNat + 10
  else c.toNat - 'A'.toNat + 10

/-! ### Embedding of `SecurityManager.sanitize_path` (src/core/security.py 83-150) -/

/-- `urllib.parse.unquote`, byte level: each `%XX` with two hex digits
becomes the character with code `XX`; a `%` not followed by two hex digits
is kept and scanning resumes at the next character. -/
def urlUnquote : List Char → List Char
  | [] => []
  | '%' :: a :: b :: rest =>
    if isHexDigitChar a && isHexDigitChar b then
      Char.ofNat (16 * hexVal a + hexVal b) :: urlUnquote rest
    else
      '%' :: urlUnquote (a :: b :: rest)
  | c :: rest => c :: urlUnquote rest

/-- Replace backslashes by slashes, as in `user_path.replace('\\', '/')`. -/
def toSlash (c : Char) : Char :=
  if c == '\\' then '/' else c

/-- Python `str.split('/')`: the empty string yields one empty segment and
adjacent separators yield empty segments. -/
def splitSlash : List Char → List (List Char)
  | [] => [[]]
  | c :: rest =>
    if c == '/' then
      [] :: splitSlash rest
    else
      match splitSlash rest with
      | [] => [[c]]
      | seg :: segs => (c :: seg) :: segs

/-- The blocked absolute-path shapes of security.py line 97: a leading `/`,
a leading `\`, or a drive-letter pattern `[a-zA-Z]:\`. -/
def blockedAbsolute (s : List Char) : Bool :=
  match s with
  | [] => false
  | c :: rest =>
    c == '/' || c == '\\' ||
      (match rest with
       | c2 :: c3 :: _ => isAsciiAlpha c && c2 == ':' && c3 == '\\'
       | _ => false)

/-- One character of `SAFE_FILENAME_PATTERN`, the class `[a-zA-Z0-9_\-\.]`. -/
def isSafeFilenameChar (c : Char) : Bool :=
  isAsciiAlpha c || isAsciiDigit c || c == '_' || c == '-' || c == '.'

/-- `re.match` of `SAFE_FILENAME_PATTERN` (`^[a-zA-Z0-9_\-\.]+$`): a
nonempty run of class characters; the `$` anchor also matches just before
one trailing newline, as in Python `re`. -/
def safeFilenameMatch (s : List Char) : Bool :=
  (!s.isEmpty && s.all isSafeFilenameChar) ||
    (match s.reverse with
     | '\n' :: t => !t.isEmpty && t.reverse.all isSafeFilenameChar
     | _ => false)

/-- The path components `sanitize_path` validates: strip whitespace, strip
leading and trailing slashes, URL-decode once, replace `\` by `/`, split
on `/` (security.py lines 101, 114, 119). -/
def sanitizeSegments (user_path : String) : List (List Char) :=
  splitSlash ((urlUnquote (stripChars isSlashOrBackslash
    (stripChars isAsciiWhitespace user_path.toList))).map toSlash)

/-- Rejection test of the component loop (security.py lines 120-126):
empty, `.`, `..`, or failing the whitelist pattern. -/
def invalidSegment (p : List Char) : Bool :=
  p.isEmpty || p == ['.'] || p == ['.', '.'] || !(safeFilenameMatch p)

/-- `ALLOWED_EXTENSIONS` of SecurityManager. -/
def allowedExtensions : List String :=
  [".html", ".htm", ".css", ".js", ".json", ".txt", ".md",
   ".png", ".jpg", ".jpeg", ".gif", ".svg", ".webp", ".ico",
   ".woff", ".woff2", ".ttf", ".otf", ".eot",
   ".xml", ".pdf", ".mp3", ".mp4", ".webm", ".ogg"]

/-- `PurePath.suffix` of one file name: the part from the last dot, empty
when there is no dot, the dot is the first character, or the dot is the
last character (the CPython rule `0 < i < len(name) - 1`). -/
def nameSuffix (name : List Char) : List Char :=
  let r := name.reverse
  let afterRev := r.takeWhile (fun c => !(c == '.'))
  match r.dropWhile (fun c => !(c == '.')) with
  | [] => []
  | _ :: before =>
    if afterRev.isEmpty then []
    else if before.isEmpty then []
    else '.' :: afterRev.reverse

/-- Suffix of the final component of a resolved path (empty for the root). -/
def pathSuffix (resolved : List String) : List Char :=
  match resolved.getLast? with
  | none => []
  | some name => nameSuffix name.toList

/-- The extension check `resolved.suffix.lower() in ALLOWED_EXTENSIONS`
(security.py line 146); `Char.toLower` lowercases ASCII, which decides
membership in this ASCII-only set exactly as Python does. -/
def extensionAllowed (resolved : List String) : Bool :=
  allowedExtensions.contains (String.mk ((pathSuffix resolved).map Char.toLower))

/-- `SecurityManager.sanitize_path` (security.py lines 83-150).  Absolute
paths are component lists; `base_dir` is absolute (the non-absolute branch
raises `ValueError` and is outside the claims).  `fsResolve` stands for
`Path.resolve(strict=False)`, an arbitrary canonicalisation of a component
list (symlinks included); the containment test
`resolved.relative_to(base_dir.resolve())` succeeds exactly when the parts
of the resolved base are a prefix of the parts of the resolved path. -/
def sanitize_path (fsResolve : List String → List String)
    (user_path : String) (base_dir : List String) : Option (List String) :=
  if blockedAbsolute user_path.toList then none
  else
    let stripped := stripChars isSlashOrBackslash
      (stripChars isAsciiWhitespace user_path.toList)
    if stripped.isEmpty then none
    else if stripped.contains (Char.ofNat 0) then none
    else if (sanitizeSegments user_path).any invalidSegment then none
    else
      let requested := base_dir ++ (sanitizeSegments user_path).map (fun p => String.mk p)
      let resolved := fsResolve requested
      if (fsResolve base_dir).isPrefixOf resolved then
        if extensionAllowed resolved then some resolved else none
      else none

/-- Claim C1: whenever `sanitize_path` returns a path, that path is
contained under the resolved sandbox root: the components of
`fsResolve base_dir` are a prefix of the returned resolved path, for every
canonicalisation function (so symlink behaviour is covered). -/
theorem sanitize_path_contained (fsResolve : List String → List String)
    (user_path : String) (base_dir : List String) (p : List String)
    (h : sanitize_path fsResolve user_path base_dir = some p) :
    (fsResolve base_dir).isPrefixOf p = true := by
  simp only [sanitize_path] at h
  repeat' split at h
  all_goals simp_all

/-- Witness for C1: a concrete benign request is accepted and the returned
path extends the resolved root. -/
theorem sanitize_path_contained_witness :
    sanitize_path id "index.html" ["srv"] = some ["srv", "index.html"] ∧
    (id ["srv"] : List String).isPrefixOf ["srv", "index.html"] = true :=
  ⟨by decide,
   sanitize_path_contained id "index.html" ["srv"] ["srv", "index.html"] (by decide)⟩

/-- Claim C2: any request whose validated components (after one URL-decode
and splitting on both separators, exactly as the code computes them)
contain a `..` segment is rejected with `none` — covering raw `..`,
once-encoded `%2e%2e`, and backslash-separated forms alike — for every
absolute sandbox root, with no filesystem access. -/
theorem sanitize_path_rejects_dotdot (fsResolve : List String → List String)
    (user_path : String) (base_dir : List String)
    (h : ['.', '.'] ∈ sanitizeSegments user_path) :
    sanitize_path fsResolve user_path base_dir = none := by
  have hbad : (sanitizeSegments user_path).any invalidSegment = true :=
    List.any_eq_true.mpr ⟨['.', '.'], h, by decide⟩
  simp only [sanitize_path]
  repeat' split
  all_goals simp_all

/-- Witness for C2: the spec scenario `"../../etc/passwd"` contains a `..`
segment and is rejected. -/
theorem sanitize_path_rejects_dotdot_witness :
    ['.', '.'] ∈ sanitizeSegments "../../etc/passwd" ∧
    sanitize_path id "../../etc/passwd" ["srv"] = none :=
  ⟨by decide,
   sanitize_path_rejects_dotdot id "../../etc/passwd" ["srv"] (by decide)⟩

/-! ### Embedding of `SecurityManager.validate_site_id` (src/core/security.py 152-163) -/

/-- Tail of a hexadecimal literal as accepted by Python `int(s, 16)`:
hex digits with single underscores allowed only between digits. -/
def hexUnderscoreTail : List Char → Bool
  | [] => true
  | '_' :: rest =>
    match rest with
    | c :: rest2 => isHexDigitChar c && hexUnderscoreTail rest2
    | [] => false
  | c :: rest => isHexDigitChar c && hexUnderscoreTail rest

/-- Nonempty digit run for `int(s, 16)`: must start with a hex digit. -/
def hexDigitsWithUnderscores : List Char → Bool
  | [] => false
  | c :: rest => isHexDigitChar c && hexUnderscoreTail rest

/-- Optional sign accepted by `int`. -/
def stripSign : List Char → List Char
  | '+' :: r => r
  | '-' :: r => r
  | s => s

/-- Optional `0x`/`0X` base marker accepted by `int(s, 16)`, with one
underscore allowed right after it. -/
def stripHexMarker : List Char → List Char
  | '0' :: 'x' :: r =>
    (match r with
     | '_' :: r2 => r2
     | _ => r)
  | '0' :: 'X' :: r =>
    (match r with
     | '_' :: r2 => r2
     | _ => r)
  | s => s

/-- Acceptance of Python `int(s, 16)`: optional surrounding whitespace,
optional sign, optional `0x` marker, then hex digits with single
underscores between digits.  (Non-ASCII digit forms that CPython also
accepts are outside the character model; they only widen acceptance
further beyond the 64-hex-character format.) -/
def pyIntBase16Accepts (s : List Char) : Bool :=
  hexDigitsWithUnderscores (stripHexMarker (stripSign
    (stripChars isAsciiWhitespace s)))

/-- `SecurityManager.validate_site_id` (security.py 152-163): length must
be 64, then `int(site_id, 16)` decides validity, `ValueError` giving
`False`.  The `isinstance` guard is subsumed by typing. -/
def validate_site_id (site_id : String) : Bool :=
  if site_id.length == 64 then pyIntBase16Accepts site_id.toList else false

/-- The format the spec describes, modelled from the spec words for
comparison: exactly 64 characters, each a lowercase or uppercase hex
digit. -/
def spec_validate_site_id (s : String) : Bool :=
  s.length == 64 && s.toList.all isHexDigitChar

/-- A 64-character input accepted by the code although its first character
is not a hex digit. -/
def signedSiteId : String := String.mk ('+' :: List.replicate 63 'f')

/-- Claim C8 fails on the code: `int(s, 16)` also accepts sign, base
marker, underscore and whitespace forms, so a 64-character string starting
with `+` validates although it is not 64 hex characters. -/
theorem validate_site_id_accepts_nonhex :
    validate_site_id signedSiteId = true ∧
    spec_validate_site_id signedSiteId = false := by
  decide

/-! ### Embedding of `KillSwitch` (src/core/killswitch.py) -/

/-- The mutable fields of `KillSwitch` that `_check_vpn_status` and
`_trigger_emergency_shutdown` read and write, plus instrumentation:
`emergency_calls` counts invocations of the caller-supplied
`on_emergency_shutdown` callback and `audit_events` collects the event
types handed to the audit logger. -/
structure KillSwitchState where
  is_safe : Bool
  shutdown_triggered : Bool
  last_known_ip : Option String
  emergency_calls : Nat
  audit_events : List String
deriving DecidableEq, Repr

/-- Constructor state of `KillSwitch.__init__`: not safe, not triggered. -/
def initialKillSwitch : KillSwitchState :=
  { is_safe := false, shutdown_triggered := false, last_known_ip := none,
    emergency_calls := 0, audit_events := [] }

/-- Result dictionary of `VPNChecker.check_vpn_status`. -/
structure VpnStatus where
  appears_safe : Bool
  public_ip : Option String
deriving DecidableEq, Repr

/-- One probe tick either returns a status or raises an exception. -/
inductive ProbeOutcome where
  | ok (status : VpnStatus)
  | raises (msg : String)

/-- `KillSwitch._trigger_emergency_shutdown` (killswitch.py 93-103): set
the flag, log `EMERGENCY_SHUTDOWN`, invoke the callback. -/
def trigger_emergency_shutdown (s : KillSwitchState) : KillSwitchState :=
  { s with shutdown_triggered := true,
           audit_events := s.audit_events ++ ["EMERGENCY_SHUTDOWN"],
           emergency_calls := s.emergency_calls + 1 }

/-- `KillSwitch._check_vpn_status` (killswitch.py 61-91).  On a normal
probe: update `is_safe`, log status changes, trigger when unsafe and not
yet triggered, then store the ip.  On an exception: trigger only when
`is_safe` is still true — without clearing `is_safe` and without
consulting `shutdown_triggered`. -/
def check_vpn_status (s : KillSwitchState) : ProbeOutcome → KillSwitchState
  | ProbeOutcome.ok status =>
    let was_safe := s.is_safe
    let s1 := { s with is_safe := status.appears_safe }
    let s2 :=
      if was_safe != s1.is_safe || status.public_ip != s1.last_known_ip then
        { s1 with audit_events := s1.audit_events ++ ["VPN_STATUS_CHANGE"] }
      else s1
    let s3 :=
      if !s2.is_safe && !s2.shutdown_triggered then
        trigger_emergency_shutdown s2
      else s2
    { s3 with last_known_ip := status.public_ip }
  | ProbeOutcome.raises _ =>
    if s.is_safe then trigger_emergency_shutdown s else s

/-- A probe tick that raises, as in spec scenario D. -/
def failingProbe : ProbeOutcome := ProbeOutcome.raises "egress probe exception"

/-- Claim C5 fails on the code: starting from a safe, untriggered monitor,
two consecutive probe exceptions invoke the emergency callback twice (the
exception path never clears `is_safe` and ignores `shutdown_triggered`),
even though the first tick already set `shutdown_triggered`; and from the
initial not-safe state a probe exception never fires the callback at
all. -/
theorem killswitch_callback_not_exactly_once :
    (check_vpn_status (check_vpn_status
        { initialKillSwitch with is_safe := true } failingProbe)
      failingProbe).emergency_calls = 2 ∧
    (check_vpn_status { initialKillSwitch with is_safe := true }
      failingProbe).shutdown_triggered = true ∧
    (check_vpn_status initialKillSwitch failingProbe).emergency_calls = 0 := by
  decide

/-! ### Embedding of `AuditLogger.log_event` (src/core/audit_log.py 38-56) -/

/-- One persisted audit record: the three event fields plus the `hash`
field added before writing.  `data` holds the canonical JSON serialization
of the data dictionary; `timestamp` and `event` are assumed free of JSON
escapes, as they are for every event type the code emits. -/
structure AuditEventRec where
  timestamp : String
  event : String
  data : String
  hash : String
deriving DecidableEq, Repr

/-- `json.dumps(event, sort_keys=True)` of the dictionary built in
`log_event`: keys in sorted order `data`, `event`, `timestamp`. -/
def canonicalEventJson (timestamp event_type data : String) : String :=
  "\x7b\"data\": " ++ data ++ ", \"event\": \"" ++ event_type ++
    "\", \"timestamp\": \"" ++ timestamp ++ "\"\x7d"

/-- `AuditLogger.log_event` (audit_log.py 38-56): build the event, hash its
canonical serialization with SHA-256 (the hex digest `H` is kept abstract),
keep the first 16 digest characters as `hash`, append the record to the
log.  No field of any earlier record enters the computation. -/
def log_event (H : String → String) (log : List AuditEventRec)
    (timestamp event_type data : String) : List AuditEventRec :=
  let event_json := canonicalEventJson timestamp event_type data
  log ++ [{ timestamp := timestamp, event := event_type, data := data,
            hash := (H event_json).take 16 }]

/-- Claim C6 fails on the code: the record appended by `log_event` — its
`hash` included — is the same after any two histories whatsoever, so
`this_hash` does not incorporate the previous event's hash, no chain
exists to recompute, and editing a historical payload leaves every later
hash unchanged.  (No `verify_chain` function exists in the source.) -/
theorem log_event_ignores_history (H : String → String)
    (log1 log2 : List AuditEventRec) (ts et d : String) :
    (log_event H log1 ts et d).drop log1.length =
      (log_event H log2 ts et d).drop log2.length := by
  unfold log_event
  rw [List.drop_left, List.drop_left]

/-! ### Embedding of `SiteDownloader._lookup_site_in_dht` and `dht_callback`
(src/core/downloader.py 66-131) -/

/-- A DHT mutable-item alert as handed to `dht_callback`: the bdecoded
value dictionary (byte-string entries), the signature bytes and the key
bytes.  The code builds exactly this dictionary from
`dht_mutable_item_alert` fields. -/
structure DhtItem where
  v : List (String × List Nat)
  sig : List Nat
  k : List Nat
deriving DecidableEq, Repr

/-- Dictionary lookup on the bdecoded value. -/
def assocLookup (d : List (String × List Nat)) (key : String) : Option (List Nat) :=
  match d.find? (fun kv => kv.1 == key) with
  | some kv => some kv.2
  | none => none

/-- `dht_callback` (downloader.py 94-100): whenever the item carries a
value containing `ih`, record that info hash as received.  Nothing else is
inspected: not the signature, not the key, not any sequence field. -/
def dht_callback (item : Option DhtItem)
    (acc : Option (List Nat)) : Option (List Nat) :=
  match item with
  | none => acc
  | some it =>
    match assocLookup it.v "ih" with
    | some ihBytes => some ihBytes
    | none => acc

/-- `_lookup_site_in_dht` (downloader.py 66-131): feed the received alerts
through `dht_callback`; return the recorded info hash, or `none` when no
alert set it before the timeout.  The second component lists the audit
events raised during the lookup — the code raises none: downloader.py
never touches the audit logger. -/
def lookup_site_in_dht (alerts : List DhtItem) :
    Option (List Nat) × List String :=
  (alerts.foldl (fun acc it => dht_callback (some it) acc) none, [])

/-- Claim C3 fails on the code: a pointer item carrying arbitrary
(unverifiable) signature bytes and no sequence information at all is
accepted — the lookup returns its info hash and raises no
`SECURITY_VIOLATION` audit event; no cached-sequence state even exists to
compare against. -/
theorem lookup_accepts_unverified_pointer (sig k ihBytes : List Nat) :
    lookup_site_in_dht [{ v := [("ih", ihBytes)], sig := sig, k := k }] =
      (some ihBytes, []) := rfl

/-! ### Embedding of `SitePublisher.publish_site` and `_publish_to_dht`
(src/core/publisher.py 83-134, 173-239) -/

/-- The bencoded value dictionary built in `_publish_to_dht`
(publisher.py 198-202): the info hash, the constant format field `v = 1`,
and a timestamp.  The dictionary carries no sequence number. -/
structure PointerValue where
  ih : List Nat
  v : Nat
  t : Nat
deriving DecidableEq, Repr

/-- The mutable item as assembled for the DHT put (publisher.py 220-226):
signed value, public key, signature, and the sequence field, which the
code sets to the literal `1`. -/
structure DhtPut where
  value : PointerValue
  k : List Nat
  sig : List Nat
  seq : Nat
deriving DecidableEq, Repr

/-- `_publish_to_dht` (publisher.py 173-239).  `sign` stands for Ed25519
signing of the bencoded value with the private key and `pubkeyOf` for
public-key derivation; both are opaque.  The function reads nothing from
the stored site metadata: the submitted sequence is always `1`. -/
def publish_to_dht (sign : List Nat → PointerValue → List Nat)
    (pubkeyOf : List Nat → List Nat)
    (private_key : List Nat) (info_hash : List Nat) (now : Nat) : DhtPut :=
  let value : PointerValue := { ih := info_hash, v := 1, t := now }
  { value := value, k := pubkeyOf private_key,
    sig := sign private_key value, seq := 1 }

/-- The slice of `SiteMetadata` that `publish_site` updates: the `version`
counter (`create_site` initialises it to 1). -/
structure SiteMetadataRec where
  version : Nat
deriving DecidableEq, Repr

/-- Publisher-side state: the stored metadata and the puts that reached
the overlay. -/
structure PubState where
  metadata : SiteMetadataRec
  dht_puts : List DhtPut
deriving DecidableEq, Repr

/-- `publish_site` (publisher.py 83-134): build the pointer and submit it;
when the overlay put succeeds, the put takes effect and only then is the
metadata version incremented and saved; when it fails, `_publish_to_dht`
raises, the handler returns `False`, and neither the put nor any metadata
update happens. -/
def publish_site (sign : List Nat → PointerValue → List Nat)
    (pubkeyOf : List Nat → List Nat)
    (private_key : List Nat) (info_hash : List Nat) (now : Nat)
    (overlay_ok : Bool) (st : PubState) : Bool × PubState :=
  let put := publish_to_dht sign pubkeyOf private_key info_hash now
  if overlay_ok then
    (true, { metadata := { version := st.metadata.version + 1 },
             dht_puts := st.dht_puts ++ [put] })
  else
    (false, st)

/-- Claim C4 fails on the code: across two successive successful publishes
starting from a freshly created site (metadata version 1), both submitted
pointers carry sequence `1` — the code hardcodes `seq = 1` and never reads
the stored sequence, so the second publish does not carry sequence 2 and
resolved sequence values are not strictly increasing. -/
theorem publish_seq_always_one (sign : List Nat → PointerValue → List Nat)
    (pubkeyOf : List Nat → List Nat)
    (priv ih1 ih2 : List Nat) (t1 t2 : Nat) :
    ((publish_site sign pubkeyOf priv ih2 t2 true
        (publish_site sign pubkeyOf priv ih1 t1 true
          { metadata := { version := 1 }, dht_puts := [] }).2).2.dht_puts.map
      DhtPut.seq) = [1, 1] := rfl

/-- Claim C9 fails on the code: when the overlay put fails, `publish_site`
returns `False` with the state untouched — the metadata version was never
incremented in the first place (the update runs only after a successful
put), so the locally stored value does not reflect any increment and a
retry recomputes from the unincremented state. -/
theorem publish_failure_no_increment (sign : List Nat → PointerValue → List Nat)
    (pubkeyOf : List Nat → List Nat)
    (priv ih : List Nat) (now : Nat) (st : PubState) :
    (publish_site sign pubkeyOf priv ih now false st).2.metadata.version =
        st.metadata.version ∧
      (publish_site sign pubkeyOf priv ih now false st).1 = false :=
  ⟨rfl, rfl⟩

/-! ### Embedding of `SiteStorage.load_private_key` (src/core/storage.py 57-85) -/

/-- `SiteStorage.load_private_key`.  `fs` is the filesystem: file path to
stored bytes, `none` when the file does not exist.  `decrypt` stands for
`SecurityManager.decrypt_private_key`, returning `none` when decryption
raises.  Python truthiness of the password means `None` and the empty
string both take the raw branch. -/
def load_private_key (fs : String → Option (List Nat))
    (decrypt : List Nat → String → Option (List Nat))
    (key_file : String) (password : Option String) : Except String (List Nat) :=
  match fs key_file with
  | none => Except.error "FileNotFoundError"
  | some key_data =>
    match password with
    | some pw =>
      if pw.isEmpty then Except.ok key_data
      else
        match decrypt key_data pw with
        | some private_key => Except.ok private_key
        | none => Except.error "ValueError"
    | none => Except.ok key_data

/-- Claim C10: with `password = None`, `load_private_key` returns the
stored bytes exactly as written — for every file content (an encrypted
envelope included) and every decryption collaborator, which is never
consulted — and the only failure is `FileNotFoundError` when the file is
missing. -/
theorem load_private_key_password_none (fs : String → Option (List Nat))
    (decrypt : List Nat → String → Option (List Nat)) (key_file : String) :
    (∀ key_data, fs key_file = some key_data →
        load_private_key fs decrypt key_file none = Except.ok key_data) ∧
    (fs key_file = none →
        load_private_key fs decrypt key_file none =
          Except.error "FileNotFoundError") := by
  constructor
  · intro key_data h
    unfold load_private_key
    rw [h]
  · intro h
    unfold load_private_key
    rw [h]

/-- Witness for C10: a filesystem holding an arbitrary blob under the key
file, with a decryptor that always fails, still returns the blob
verbatim. -/
theorem load_private_key_password_none_witness :
    load_private_key (fun _ => some [5, 6, 7]) (fun _ _ => none)
      "site.key" none = Except.ok [5, 6, 7] :=
  (load_private_key_password_none (fun _ => some [5, 6, 7])
    (fun _ _ => none) "site.key").1 [5, 6, 7] rfl

/-! ### Embedding of `SecurityManager.encrypt_private_key` and
`decrypt_private_key` (src/core/security.py 193-261)

The cryptographic collaborators stay abstract: `kdf` is
PBKDF2-HMAC-SHA256 (salt and password to 32-byte key, 100000 iterations),
`enc` is the AES-256-GCM encryptor (key, nonce, plaintext to ciphertext
and 16-byte tag) and `dec` the decryptor, `none` standing for the raised
`InvalidTag` — the single failure signal for a wrong key and for
corrupted data alike.  The structural content of the claim — the
`salt ∥ nonce ∥ tag ∥ ciphertext` layout, the matching slicing on
decryption, and re-derivation of the same key from the stored salt — is
proved from the embedding; AEAD round-trip and rejection enter as
hypotheses on the abstract primitives at the used values. -/

/-- `encrypt_private_key` (security.py 193-230): derive the key from the
random 16-byte salt, encrypt under the random 12-byte nonce, return
`salt ++ nonce ++ tag ++ ciphertext`. -/
def encrypt_private_key (kdf : List Nat → String → List Nat)
    (enc : List Nat → List Nat → List Nat → List Nat × List Nat)
    (salt nonce : List Nat) (private_key : List Nat) (password : String) :
    List Nat :=
  let key := kdf salt password
  salt ++ nonce ++ (enc key nonce private_key).2 ++ (enc key nonce private_key).1

/-- `decrypt_private_key` (security.py 232-261): slice the blob as
`salt = [0:16]`, `nonce = [16:28]`, `tag = [28:44]`,
`ciphertext = [44:]`, re-derive the key, decrypt. -/
def decrypt_private_key (kdf : List Nat → String → List Nat)
    (dec : List Nat → List Nat → List Nat → List Nat → Option (List Nat))
    (encrypted_key : List Nat) (password : String) : Option (List Nat) :=
  let salt := encrypted_key.take 16
  let nonce := (encrypted_key.drop 16).take 12
  let tag := (encrypted_key.drop 28).take 16
  let ciphertext := encrypted_key.drop 44
  dec (kdf salt password) nonce tag ciphertext

/-- Claim C7: with a 16-byte salt, a 12-byte nonce a 16-byte tag, and the
AEAD primitives round-tripping (respectively rejecting a key derived from
a different passphrase) at the used values, sealing then unsealing with
the same passphrase returns the private key exactly; unsealing with the
other passphrase yields the single generic failure `none`; and the sealed
blob is literally `salt ++ nonce ++ tag ++ ciphertext`. -/
theorem seal_unseal_roundtrip (kdf : List Nat → String → List Nat)
    (enc : List Nat → List Nat → List Nat → List Nat × List Nat)
    (dec : List Nat → List Nat → List Nat → List Nat → Option (List Nat))
    (salt nonce pk : List Nat) (pw pw2 : String)
    (hs : salt.length = 16) (hn : nonce.length = 12)
    (ht : (enc (kdf salt pw) nonce pk).2.length = 16)
    (hdec : dec (kdf salt pw) nonce (enc (kdf salt pw) nonce pk).2
      (enc (kdf salt pw) nonce pk).1 = some pk)
    (hwrong : dec (kdf salt pw2) nonce (enc (kdf salt pw) nonce pk).2
      (enc (kdf salt pw) nonce pk).1 = none) :
    decrypt_private_key kdf dec
        (encrypt_private_key kdf enc salt nonce pk pw) pw = some pk ∧
    decrypt_private_key kdf dec
        (encrypt_private_key kdf enc salt nonce pk pw) pw2 = none ∧
    encrypt_private_key kdf enc salt nonce pk pw =
      salt ++ nonce ++ (enc (kdf salt pw) nonce pk).2 ++
        (enc (kdf salt pw) nonce pk).1 := by
  have hassoc : salt ++ nonce ++ (enc (kdf salt pw) nonce pk).2 ++
      (enc (kdf salt pw) nonce pk).1 =
      salt ++ (nonce ++ ((enc (kdf salt pw) nonce pk).2 ++
        (enc (kdf salt pw) nonce pk).1)) := by
    rw [List.append_assoc, List.append_assoc]
  have e1 : (salt ++ nonce ++ (enc (kdf salt pw) nonce pk).2 ++
      (enc (kdf salt pw) nonce pk).1).take 16 = salt := by
    rw [hassoc]
    exact List.take_left' hs
  have e2 : ((salt ++ nonce ++ (enc (kdf salt pw) nonce pk).2 ++
      (enc (kdf salt pw) nonce pk).1).drop 16).take 12 = nonce := by
    rw [hassoc, List.drop_left' hs]
    exact List.take_left' hn
  have e3 : ((salt ++ nonce ++ (enc (kdf salt pw) nonce pk).2 ++
      (enc (kdf salt pw) nonce pk).1).drop 28).take 16 =
      (enc (kdf salt pw) nonce pk).2 := by
    have hsn : (salt ++ nonce).length = 28 := by
      rw [List.length_append, hs, hn]
    rw [List.append_assoc (salt ++ nonce) ((enc (kdf salt pw) nonce pk).2)
      ((enc (kdf salt pw) nonce pk).1), List.drop_left' hsn]
    exact List.take_left' ht
  have e4 : (salt ++ nonce ++ (enc (kdf salt pw) nonce pk).2 ++
      (enc (kdf salt pw) nonce pk).1).drop 44 =
      (enc (kdf salt pw) nonce pk).1 := by
    have hsnt : (salt ++ nonce ++ (enc (kdf salt pw) nonce pk).2).length = 44 := by
      rw [List.length_append, List.length_append, hs, hn, ht]
    exact List.drop_left' hsnt
  refine ⟨?_, ?_, rfl⟩
  · show dec
      (kdf ((salt ++ nonce ++ (enc (kdf salt pw) nonce pk).2 ++
        (enc (kdf salt pw) nonce pk).1).take 16) pw)
      (((salt ++ nonce ++ (enc (kdf salt pw) nonce pk).2 ++
        (enc (kdf salt pw) nonce pk).1).drop 16).take 12)
      (((salt ++ nonce ++ (enc (kdf salt pw) nonce pk).2 ++
        (enc (kdf salt pw) nonce pk).1).drop 28).take 16)
      ((salt ++ nonce ++ (enc (kdf salt pw) nonce pk).2 ++
        (enc (kdf salt pw) nonce pk).1).drop 44) = some pk
    rw [e1, e2, e3, e4]
    exact hdec
  · show dec
      (kdf ((salt ++ nonce ++ (enc (kdf salt pw) nonce pk).2 ++
        (enc (kdf salt pw) nonce pk).1).take 16) pw2)
      (((salt ++ nonce ++ (enc (kdf salt pw) nonce pk).2 ++
        (enc (kdf salt pw) nonce pk).1).drop 16).take 12)
      (((salt ++ nonce ++ (enc (kdf salt pw) nonce pk).2 ++
        (enc (kdf salt pw) nonce pk).1).drop 28).take 16)
      ((salt ++ nonce ++ (enc (kdf salt pw) nonce pk).2 ++
        (enc (kdf salt pw) nonce pk).1).drop 44) = none
    rw [e1, e2, e3, e4]
    exact hwrong

/-- Concrete key-derivation stand-in for the C7 witness. -/
def witnessKdf : List Nat → String → List Nat :=
  fun salt pw => pw.toList.map Char.toNat ++ salt

/-- Concrete AEAD encryptor stand-in: ciphertext is the message, the tag
is the first 16 key bytes. -/
def witnessEnc : List Nat → List Nat → List Nat → List Nat × List Nat :=
  fun key _ msg => (msg, key.take 16)

/-- Concrete AEAD decryptor stand-in: accept exactly when the tag matches
the key, mirroring the GCM tag check. -/
def witnessDec : List Nat → List Nat → List Nat → List Nat → Option (List Nat) :=
  fun key _ tag ct => if tag == key.take 16 then some ct else none

/-- Witness for C7 at concrete values: sealing `[1, 2, 3]` under
passphrase `a` unseals exactly with `a` and fails with `b`. -/
theorem seal_unseal_roundtrip_witness :
    decrypt_private_key witnessKdf witnessDec
        (encrypt_private_key witnessKdf witnessEnc
          (List.range 16) (List.range 12) [1, 2, 3] "a") "a" = some [1, 2, 3] ∧
    decrypt_private_key witnessKdf witnessDec
        (encrypt_private_key witnessKdf witnessEnc
          (List.range 16) (List.range 12) [1, 2, 3] "a") "b" = none :=
  ⟨(seal_unseal_roundtrip witnessKdf witnessEnc witnessDec
      (List.range 16) (List.range 12) [1, 2, 3] "a" "b"
      (by decide) (by decide) (by decide) (by decide) (by decide)).1,
   (seal_unseal_roundtrip witnessKdf witnessEnc witnessDec
      (List.range 16) (List.range 12) [1, 2, 3] "a" "b"
      (by decide) (by decide) (by decide) (by decide) (by decide)).2.1⟩

end ZedNet
